import Mathlib

/-!
Verification development for the SEO competitive-analyst pipeline
(`seo_analyst_app.py`): a shallow embedding of the data-aggregation code
(External Data Client, Landscape Aggregator, Strategy Prompt Builder,
session-history handler) together with theorems about its behaviour.

External effects (HTTP calls, the generative-model call) are modelled as
oracle values supplied up front; the embedded functions are the pure
data-shaping logic of the source, including the Python runtime behaviours
that matter here (dictionary-missing-key defaults, falsiness of `None`/`0`/
empty containers, and the fact that the format spec `,` raises for `str`
and `None` operands).
-/

/-- A Python value that can sit in one of the dictionary slots the code
formats into the prompt: an `int`, a `str`, or `None`. -/
inductive PyVal where
  | vint (n : Int)
  | vstr (v : String)
  | vnone
deriving DecidableEq, Repr

/-- Plain f-string interpolation of a value (`str(x)` semantics for the
three kinds that occur): ints print as decimal, strings as themselves,
`None` as `"None"`. -/
def pyStr : PyVal → String
  | .vint n => toString n
  | .vstr v => v
  | .vnone => "None"

/-- Digit grouping used by the `,` format option: starting from the least
significant digit (the input list is the reversed digit string), insert a
comma after every three digits.  The fuel argument (instantiated with the
digit count, which each step strictly decreases) keeps the recursion
structural. -/
def commaGroupAux (fuel : Nat) (ds : List Char) : List Char :=
  match fuel with
  | 0 => ds
  | f + 1 => if ds.length ≤ 3 then ds else ds.take 3 ++ ',' :: commaGroupAux f (ds.drop 3)

/-- Digit grouping over a reversed digit string. -/
def commaGroup (ds : List Char) : List Char :=
  commaGroupAux ds.length ds

/-- Python `format(n, ",")` for an `int`: decimal digits grouped in threes
with commas, with a leading minus sign for negatives. -/
def intComma (n : Int) : String :=
  let ds := (toString n.natAbs).data
  (if n < 0 then "-" else "") ++ String.mk (commaGroup ds.reverse).reverse

/-- Evaluating the f-string fragment `{v:,}`.  In Python the thousands
separator is only valid for numeric operands: applying it to a `str`
raises `ValueError` and applying it to `None` raises `TypeError`; both
abort the surrounding call. -/
def fmtComma : PyVal → Except String String
  | .vint n => .ok (intComma n)
  | .vstr _ => .error "ValueError: cannot specify a comma with type s"
  | .vnone => .error "TypeError: unsupported format string passed to NoneType"

/-- Lift a JSON-ish optional integer field to the value Python sees
(`None` when the key is missing or null). -/
def optIntVal : Option Int → PyVal
  | none => .vnone
  | some n => .vint n

/-- Lift an optional string field to the value Python sees. -/
def optStrVal : Option String → PyVal
  | none => .vnone
  | some s => .vstr s

/-! ## Provider response shapes

`Body τ` is the parsed JSON body of a DataForSEO response whose
per-task `result` entries have shape `τ`.  `status_code` is read with
`.get` in the source, so it is optional; the task-level fields are read
by direct indexing on responses the provider always populates. -/

/-- One entry of the `tasks` array of a provider response. -/
structure ApiTask (τ : Type) where
  status_code : Int
  status_message : String
  result : List τ
deriving DecidableEq, Repr

/-- Top-level parsed JSON body of a provider response. -/
structure Body (τ : Type) where
  status_code : Option Int
  status_message : Option String
  tasks : List (ApiTask τ)
deriving DecidableEq, Repr

/-- Outcome of one `requests.post`/`requests.get` round trip, after the
`requests` library has followed redirects: either a raised
`RequestException` (connection error, timeout, DNS failure, ...) or a
final response with an HTTP status and a parsed JSON body. -/
inductive HttpOutcome (β : Type) where
  | exn (msg : String)
  | resp (status : Nat) (body : β)
deriving Repr

/-- `dataforseo_request` from the source: raise-for-status (the
`requests` library raises `HTTPError`, a `RequestException`, exactly for
statuses 400–599), then accept the body iff its top-level `status_code`
is the provider OK sentinel 20000.  Returns the body on success together
with the list of `st.error` messages emitted (empty on success). -/
def dataforseo_request {τ : Type} (out : HttpOutcome (Body τ)) :
    Option (Body τ) × List String :=
  match out with
  | .exn e => (none, ["Request Error: " ++ e])
  | .resp status body =>
    if 400 ≤ status ∧ status < 600 then
      (none, ["Request Error: HTTPError " ++ toString status])
    else if body.status_code = some 20000 then
      (some body, [])
    else
      (none, ["API Error: " ++ pyStr (optStrVal body.status_message)])

/-! ## SERP items and the classification loop -/

/-- One entry of the SERP `items` array.  Every field is read with
`.get` in the source, so all are optional. -/
structure SerpItem where
  type : Option String
  domain : Option String
  url : Option String
  rank_absolute : Option Int
  title : Option String
  description : Option String
deriving DecidableEq, Repr

/-- The `result[0]` payload of a SERP task: its `items` array. -/
structure SerpResult where
  items : List SerpItem
deriving DecidableEq, Repr

/-- `needle` occurs as a contiguous sublist of `hay`. -/
def listIsInfix (needle : List Char) : List Char → Bool
  | [] => needle.isEmpty
  | c :: t => needle.isPrefixOf (c :: t) || listIsInfix needle t

/-- Python `needle in hay` for strings: contiguous substring containment
(the empty needle is contained in every string). -/
def strContains (hay needle : String) : Bool :=
  listIsInfix needle.data hay.data

/-- `item.get('type') != 'organic'` gate of the classification loop. -/
def isOrganic (it : SerpItem) : Bool :=
  it.type == some "organic"

/-- Python `str.lower()`: per-character lowercasing. -/
def strLower (s : String) : String :=
  String.mk (s.data.map Char.toLower)

/-- `your_domain.lower() in domain.lower()`: case-insensitive substring
containment of the analysed domain in the entry's domain. -/
def matchesSelf (your_domain : String) (it : SerpItem) : Bool :=
  strContains (strLower (it.domain.getD "")) (strLower your_domain)

/-- Backlink data attached to one competitor dictionary: the key may be
absent (competitor never enriched), set to the empty dict `{}` (fetch
failed or returned no result), or populated from a successful fetch. -/
inductive BLField where
  | absent
  | empty
  | profile (backlinks referring_domains rank : Int)
deriving DecidableEq, Repr

/-- One competitor dictionary as built by the classification loop. -/
structure Competitor where
  position : Int
  domain : String
  url : String
  title : String
  description : String
  backlink_data : BLField
deriving DecidableEq, Repr

/-- The competitor dictionary appended for a non-matching organic item,
with the source's `.get` defaults. -/
def mkCompetitor (it : SerpItem) : Competitor :=
  { position := it.rank_absolute.getD 0
    domain := it.domain.getD ""
    url := it.url.getD ""
    title := it.title.getD "N/A"
    description := it.description.getD "N/A"
    backlink_data := .absent }

/-- The three mutable locals of the classification loop
(`your_position`, `your_url`, `competitors`). -/
structure ParseState where
  your_position : Option Int
  your_url : Option String
  competitors : List Competitor
deriving DecidableEq, Repr

/-- One iteration of the classification loop over SERP items. -/
def parseStep (your_domain : String) (st : ParseState) (item : SerpItem) :
    ParseState :=
  if isOrganic item = false then st
  else if matchesSelf your_domain item then
    { st with your_position := some (item.rank_absolute.getD 0)
              your_url := some (item.url.getD "") }
  else
    { st with competitors := st.competitors ++ [mkCompetitor item] }

/-- The whole classification loop, starting from
`your_position = None`, `your_url = None`, `competitors = []`. -/
def parseSerp (your_domain : String) (items : List SerpItem) : ParseState :=
  items.foldl (parseStep your_domain) ⟨none, none, []⟩

/-- `self_position` of the final record: an actual rank, or the
"Not in top 10" sentinel. -/
inductive SelfPos where
  | rank (r : Int)
  | notInTop10
deriving DecidableEq, Repr

/-- The `if not your_position:` fix-up after the loop.  Python falsiness
means both `None` and the integer `0` are replaced by the sentinel. -/
def finalizePos : Option Int → SelfPos
  | none => .notInTop10
  | some p => if p = 0 then .notInTop10 else .rank p

/-! ## Keyword metrics and backlink payloads -/

/-- `keyword_info` sub-dictionary of a keyword-difficulty item. -/
structure KwInfo where
  search_volume : Option Int
  cpc : Option Int
deriving DecidableEq, Repr

/-- One entry of the keyword-difficulty `items` array. -/
structure KdItem where
  keyword_difficulty : Option Int
  keyword_info : Option KwInfo
deriving DecidableEq, Repr

/-- The `result[0]` payload of a keyword-difficulty task. -/
structure KdResult where
  items : List KdItem
deriving DecidableEq, Repr

/-- The `result[0]` payload of a backlinks-summary task; all three fields
are read with `.get(..., 0)` in the source. -/
structure BlResult where
  backlinks : Option Int
  referring_domains : Option Int
  rank : Option Int
deriving DecidableEq, Repr

/-- The `kw_metrics` dictionary: left `{}` when the keyword-difficulty
fetch fails or its `result` is empty, otherwise populated with the three
keys (whose values may themselves be `None`). -/
inductive KwMetrics where
  | empty
  | metrics (keyword_difficulty search_volume cpc : Option Int)
deriving DecidableEq, Repr

/-- The `your_bl_data` dictionary: `{}` when the self-backlink fetch
fails or its `result` is empty, otherwise the three zero-defaulted
fields. -/
inductive BLDict where
  | empty
  | profile (backlinks referring_domains rank : Int)
deriving DecidableEq, Repr

/-- `kw_metrics.get('search_volume', 'N/A')`. -/
def KwMetrics.getSV : KwMetrics → PyVal
  | .empty => .vstr "N/A"
  | .metrics _ sv _ => optIntVal sv

/-- `kw_metrics.get('keyword_difficulty', 'N/A')`. -/
def KwMetrics.getKD : KwMetrics → PyVal
  | .empty => .vstr "N/A"
  | .metrics kd _ _ => optIntVal kd

/-- `kw_metrics.get('cpc', 'N/A')`. -/
def KwMetrics.getCPC : KwMetrics → PyVal
  | .empty => .vstr "N/A"
  | .metrics _ _ cpc => optIntVal cpc

/-- `my_bl.get('backlinks', 'N/A')`. -/
def BLDict.getBacklinks : BLDict → PyVal
  | .empty => .vstr "N/A"
  | .profile b _ _ => .vint b

/-- `my_bl.get('referring_domains', 'N/A')`. -/
def BLDict.getRefDomains : BLDict → PyVal
  | .empty => .vstr "N/A"
  | .profile _ rd _ => .vint rd

/-- `my_bl.get('rank', 'N/A')`. -/
def BLDict.getRank : BLDict → PyVal
  | .empty => .vstr "N/A"
  | .profile _ _ r => .vint r

/-- `comp.get('backlink_data', {}).get('backlinks', 'N/A')`. -/
def BLField.getBacklinks : BLField → PyVal
  | .absent => .vstr "N/A"
  | .empty => .vstr "N/A"
  | .profile b _ _ => .vint b

/-- `comp.get('backlink_data', {}).get('referring_domains', 'N/A')`. -/
def BLField.getRefDomains : BLField → PyVal
  | .absent => .vstr "N/A"
  | .empty => .vstr "N/A"
  | .profile _ rd _ => .vint rd

/-- `comp.get('backlink_data', {}).get('rank', 'N/A')`. -/
def BLField.getRank : BLField → PyVal
  | .absent => .vstr "N/A"
  | .empty => .vstr "N/A"
  | .profile _ _ r => .vint r

/-! ## The aggregation run -/

/-- The dictionary returned by `analyze_competitor_landscape`. -/
structure LandscapeRecord where
  keyword : String
  keyword_metrics : KwMetrics
  my_position : SelfPos
  my_domain : String
  my_url : Option String
  my_backlinks : BLDict
  competitors : List Competitor
deriving DecidableEq, Repr

/-- Identifier of one outbound DataForSEO call of a run. -/
inductive Call where
  | serp
  | kd
  | selfBl
  | compBl (domain : String)
deriving DecidableEq, Repr

/-- The external world a run observes: the outcome of each DataForSEO
call the code can make (competitor backlink outcomes keyed by the target
domain).  There is no retry anywhere in the source, so one outcome per
call suffices. -/
structure World where
  serp : HttpOutcome (Body SerpResult)
  kd : HttpOutcome (Body KdResult)
  selfBl : HttpOutcome (Body BlResult)
  compBl : String → HttpOutcome (Body BlResult)

/-- SERP stage (source lines 111–124): mandatory.  `none` in the third
component is the `return None` abort; the second component collects the
`st.error` messages.  Note the empty-`tasks` abort emits no message, and
an OK task with an empty `result` list does *not* abort — it yields an
empty item list. -/
def serpStage (w : World) : List Call × List String × Option (List SerpItem) :=
  let rm := dataforseo_request w.serp
  match rm.1 with
  | none => ([Call.serp], rm.2, none)
  | some serp_result =>
    match serp_result.tasks with
    | [] => ([Call.serp], rm.2, none)
    | task :: _ =>
      if task.status_code ≠ 20000 then
        ([Call.serp], rm.2 ++ ["SERP Error: " ++ task.status_message], none)
      else
        ([Call.serp], rm.2,
          some (match task.result with | [] => [] | r :: _ => r.items))

/-- Keyword-difficulty stage (source lines 156–166): optional.  A failed
fetch or an empty `result` leaves the metrics `{}`; a successful body
with an empty `tasks` or `items` array raises `IndexError` in the source
(direct `[0]` indexing), modelled as the error case. -/
def kdStage (w : World) : List Call × List String × Except String KwMetrics :=
  let rm := dataforseo_request w.kd
  match rm.1 with
  | none => ([Call.kd], rm.2, .ok .empty)
  | some kw_difficulty =>
    match kw_difficulty.tasks with
    | [] => ([Call.kd], rm.2, .error "IndexError: list index out of range")
    | task :: _ =>
      match task.result with
      | [] => ([Call.kd], rm.2, .ok .empty)
      | res :: _ =>
        match res.items with
        | [] => ([Call.kd], rm.2, .error "IndexError: list index out of range")
        | kw_data :: _ =>
          ([Call.kd], rm.2, .ok (.metrics kw_data.keyword_difficulty
            (kw_data.keyword_info.bind KwInfo.search_volume)
            (kw_data.keyword_info.bind KwInfo.cpc)))

/-- Self-backlink stage (source lines 170–180): optional.  A failed fetch
or an empty `result` leaves `your_bl_data = {}`. -/
def selfBlStage (w : World) : List Call × List String × Except String BLDict :=
  let rm := dataforseo_request w.selfBl
  match rm.1 with
  | none => ([Call.selfBl], rm.2, .ok .empty)
  | some your_backlinks =>
    match your_backlinks.tasks with
    | [] => ([Call.selfBl], rm.2, .error "IndexError: list index out of range")
    | task :: _ =>
      match task.result with
      | [] => ([Call.selfBl], rm.2, .ok .empty)
      | bl :: _ =>
        ([Call.selfBl], rm.2, .ok (.profile (bl.backlinks.getD 0)
          (bl.referring_domains.getD 0) (bl.rank.getD 0)))

/-- Competitor-backlink enrichment (source lines 184–198):
`for idx, comp in enumerate(competitors[:3], 1)` with per-competitor
degradation to the empty dict; the fuel argument is the `[:3]` bound. -/
def enrichCompetitors (w : World) :
    List Competitor → Nat → List Call × List String × Except String (List Competitor)
  | comps, 0 => ([], [], .ok comps)
  | [], _ + 1 => ([], [], .ok [])
  | comp :: rest, n + 1 =>
    let rm := dataforseo_request (w.compBl comp.domain)
    match rm.1 with
    | none =>
      let t := enrichCompetitors w rest n
      (Call.compBl comp.domain :: t.1, rm.2 ++ t.2.1,
        t.2.2.map (fun l => { comp with backlink_data := .empty } :: l))
    | some comp_bl =>
      match comp_bl.tasks with
      | [] => ([Call.compBl comp.domain], rm.2,
          .error "IndexError: list index out of range")
      | task :: _ =>
        match task.result with
        | [] =>
          let t := enrichCompetitors w rest n
          (Call.compBl comp.domain :: t.1, rm.2 ++ t.2.1,
            t.2.2.map (fun l => { comp with backlink_data := .empty } :: l))
        | bl :: _ =>
          let t := enrichCompetitors w rest n
          (Call.compBl comp.domain :: t.1, rm.2 ++ t.2.1,
            t.2.2.map (fun l =>
              { comp with backlink_data := BLField.profile (bl.backlinks.getD 0)
                            (bl.referring_domains.getD 0) (bl.rank.getD 0) } :: l))

/-- The competitor-backlink stage applied to the parsed competitor list. -/
def compBlStage (w : World) (comps : List Competitor) :
    List Call × List String × Except String (List Competitor) :=
  enrichCompetitors w comps 3

/-- Outcome of one call of `analyze_competitor_landscape`: the DataForSEO
calls issued (in order), the `st.error` messages emitted, and either an
uncaught Python exception (`Except.error`) or the returned value
(`none` for the source's `return None`). -/
structure RunOut where
  calls : List Call
  msgs : List String
  result : Except String (Option LandscapeRecord)

/-- `analyze_competitor_landscape` (source lines 105–214): the ordered
stage pipeline.  The record is assembled exactly as in the source; in
particular `competitors` is truncated to five entries only at the end. -/
def analyze_competitor_landscape (w : World) (keyword your_domain : String) :
    RunOut :=
  match serpStage w with
  | (c1, m1, none) => ⟨c1, m1, .ok none⟩
  | (c1, m1, some serp_items) =>
    let ps := parseSerp your_domain serp_items
    let my_position := finalizePos ps.your_position
    match kdStage w with
    | (c2, m2, .error e) => ⟨c1 ++ c2, m1 ++ m2, .error e⟩
    | (c2, m2, .ok kw_metrics) =>
      match selfBlStage w with
      | (c3, m3, .error e) => ⟨c1 ++ c2 ++ c3, m1 ++ m2 ++ m3, .error e⟩
      | (c3, m3, .ok your_bl_data) =>
        match compBlStage w ps.competitors with
        | (c4, m4, .error e) =>
          ⟨c1 ++ c2 ++ c3 ++ c4, m1 ++ m2 ++ m3 ++ m4, .error e⟩
        | (c4, m4, .ok comps) =>
          ⟨c1 ++ c2 ++ c3 ++ c4, m1 ++ m2 ++ m3 ++ m4,
            .ok (some { keyword := keyword
                        keyword_metrics := kw_metrics
                        my_position := my_position
                        my_domain := your_domain
                        my_url := ps.your_url
                        my_backlinks := your_bl_data
                        competitors := comps.take 5 })⟩

/-! ## Strategy Prompt Builder (`analyze_with_claude`, source lines 217–274)

The f-string evaluates its interpolations left to right; the first
formatting error aborts the call, so the builder is sequenced in the
`Except` monad in source order.  Only the `:,`-formatted slots can
raise. -/

/-- Rendering of `{keyword_data['my_position']}`: an `int` prints as its
decimal digits, the sentinel prints as itself. -/
def SelfPos.render : SelfPos → String
  | .rank r => toString r
  | .notInTop10 => "Not in top 10"

/-- Rendering of `{keyword_data.get('my_url', 'N/A')}`: the key is always
present in the record, holding either a URL string or `None`. -/
def renderUrl : Option String → String
  | none => "None"
  | some u => u

/-- The per-competitor block of the prompt. -/
def compLine (comp : Competitor) : Except String String := do
  let bl ← fmtComma comp.backlink_data.getBacklinks
  let rd ← fmtComma comp.backlink_data.getRefDomains
  .ok ("\nPosition #" ++ toString comp.position ++ " - " ++ comp.domain
    ++ "\n- URL: " ++ comp.url
    ++ "\n- Title: " ++ comp.title
    ++ "\n- Total Backlinks: " ++ bl
    ++ "\n- Referring Domains: " ++ rd
    ++ "\n- Domain Rank: " ++ pyStr comp.backlink_data.getRank
    ++ "\n")

/-- The `for comp in keyword_data['competitors']` accumulation. -/
def compLines : List Competitor → Except String String
  | [] => .ok ""
  | comp :: rest => do
    let l ← compLine comp
    let ls ← compLines rest
    .ok (l ++ ls)

/-- The user prompt assembled by `analyze_with_claude`.  `Except.error`
is the uncaught `ValueError`/`TypeError` raised while evaluating the
f-string (before any model call is made). -/
def buildPrompt (keyword_data : LandscapeRecord) (timeline : String) :
    Except String String := do
  let sv ← fmtComma keyword_data.keyword_metrics.getSV
  let myBl ← fmtComma keyword_data.my_backlinks.getBacklinks
  let myRd ← fmtComma keyword_data.my_backlinks.getRefDomains
  let comps ← compLines keyword_data.competitors
  .ok ("Analyze this competitive landscape for the keyword: \""
    ++ keyword_data.keyword ++ "\"\n\nKEYWORD METRICS:\n- Search Volume: "
    ++ sv ++ " searches/month\n- Keyword Difficulty: "
    ++ pyStr keyword_data.keyword_metrics.getKD ++ "/100\n- CPC: $"
    ++ pyStr keyword_data.keyword_metrics.getCPC ++ "\n\nMY SITE ("
    ++ keyword_data.my_domain ++ "):\n- Current Position: #"
    ++ keyword_data.my_position.render ++ "\n- URL: "
    ++ renderUrl keyword_data.my_url ++ "\n- Total Backlinks: "
    ++ myBl ++ "\n- Referring Domains: " ++ myRd ++ "\n- Domain Rank: "
    ++ pyStr keyword_data.my_backlinks.getRank
    ++ "\n\nTOP COMPETITORS:\n" ++ comps
    ++ "\n\nTASK:\nProvide a comprehensive strategic plan to move from position #"
    ++ keyword_data.my_position.render ++ " to top 3 within " ++ timeline
    ++ ".\n\nProvide:\n1. **SERP Analysis**: What patterns in top results? What intent?\n2. **Backlink Gap**: How significant is the deficit?\n3. **Prioritized Action Plan**: Specific tactics with effort and impact levels\n4. **Success Metrics**: How to measure progress\n\nBe specific and actionable.")

/-- Outcome of the one generative-model completion call. -/
inductive ModelOutcome where
  | ok (text : String)
  | err (msg : String)
deriving DecidableEq, Repr

/-- `analyze_with_claude`: build the prompt (which may raise), then make
the single model call; a model error propagates to the caller uncaught.
Returns the strategy text. -/
def analyze_with_claude (modelResp : ModelOutcome)
    (keyword_data : LandscapeRecord) (timeline : String) :
    Except String String := do
  let _prompt ← buildPrompt keyword_data timeline
  match modelResp with
  | .ok text => .ok text
  | .err e => .error e

/-! ## The `analyze_btn` handler and session history (source lines 321–346) -/

/-- One entry of `st.session_state.analysis_history` (the wall-clock
timestamp is not modelled). -/
structure AnalysisResult where
  keyword : String
  domain : String
  data : LandscapeRecord
  analysis : String
deriving DecidableEq, Repr

/-- How one click of the analyze button ends. -/
inductive HandlerOutcome where
  | missingFields
  | noRecord
  | crash (msg : String)
  | done
deriving DecidableEq, Repr

/-- The `analyze_btn` click handler: the up-front `all([...])` credential
check (Python falsiness: an empty string fails it), the aggregation run,
the model call, and — only after both succeed — the single history
append.  An uncaught exception anywhere leaves the history untouched. -/
def analyze_btn_handler (w : World) (modelResp : ModelOutcome)
    (dataforseo_login dataforseo_password anthropic_key your_domain keyword
      timeline : String) (history : List AnalysisResult) :
    List AnalysisResult × HandlerOutcome :=
  if dataforseo_login = "" ∨ dataforseo_password = "" ∨ anthropic_key = ""
      ∨ your_domain = "" ∨ keyword = "" then
    (history, .missingFields)
  else
    match (analyze_competitor_landscape w keyword your_domain).result with
    | .error e => (history, .crash e)
    | .ok none => (history, .noRecord)
    | .ok (some landscape_data) =>
      match analyze_with_claude modelResp landscape_data timeline with
      | .error e => (history, .crash e)
      | .ok analysis =>
        (history ++ [{ keyword := keyword
                       domain := your_domain
                       data := landscape_data
                       analysis := analysis }], .done)

/-! ## Derived notions used in the statements -/

/-- Left fold underlying the self-match tracking of the classification
loop: the last organic item whose domain contains `your_domain`,
starting from a given accumulator. -/
def selfScan (your_domain : String) (acc : Option SerpItem)
    (items : List SerpItem) : Option SerpItem :=
  items.foldl
    (fun a it => if isOrganic it && matchesSelf your_domain it then some it else a)
    acc

/-- The last organic SERP item matching `your_domain` (the one whose
position/url survive the loop's overwriting), if any. -/
def lastSelf (your_domain : String) (items : List SerpItem) : Option SerpItem :=
  selfScan your_domain none items

/-- The competitor candidates produced by the classification loop: the
non-matching organic items, in response order. -/
def rawCompetitors (your_domain : String) (items : List SerpItem) :
    List Competitor :=
  (items.filter (fun it => isOrganic it && !matchesSelf your_domain it)).map
    mkCompetitor

/-- The SERP outcomes on which the aggregator aborts *silently* (no
`st.error` emitted): an accepted body whose `tasks` array is empty. -/
def silentSerp : HttpOutcome (Body SerpResult) → Bool
  | .exn _ => false
  | .resp status body =>
    if 400 ≤ status ∧ status < 600 then false
    else body.status_code == some 20000 && body.tasks.isEmpty

/-- The record returned by a run, when it neither raised nor returned
`None`. -/
def recOf (w : World) (keyword your_domain : String) : Option LandscapeRecord :=
  match (analyze_competitor_landscape w keyword your_domain).result with
  | .ok (some r) => some r
  | _ => none

/-! ## Concrete fixtures used by witnesses and counterexamples -/

/-- An organic SERP item with the given domain, url and absolute rank. -/
def itemO (d u : String) (r : Option Int) : SerpItem :=
  { type := some "organic", domain := some d, url := some u,
    rank_absolute := r, title := some "t", description := some "ds" }

/-- A provider body with OK status codes and a single task carrying the
given `result` array. -/
def okTasks {τ : Type} (res : List τ) : Body τ :=
  { status_code := some 20000, status_message := some "Ok.",
    tasks := [{ status_code := 20000, status_message := "Ok.", result := res }] }

/-- A successful SERP response carrying the given items. -/
def serpOf (items : List SerpItem) : HttpOutcome (Body SerpResult) :=
  .resp 200 (okTasks [{ items := items }])

/-- A successful keyword-difficulty response. -/
def kdOf (kd sv cpc : Int) : HttpOutcome (Body KdResult) :=
  let item : KdItem :=
    { keyword_difficulty := some kd
      keyword_info := some { search_volume := some sv, cpc := some cpc } }
  .resp 200 (okTasks [{ items := [item] }])

/-- A successful backlinks-summary response. -/
def blOf (b rd rk : Int) : HttpOutcome (Body BlResult) :=
  .resp 200 (okTasks [{ backlinks := some b, referring_domains := some rd, rank := some rk }])

/-- A transport-level failure (`requests.exceptions.RequestException`). -/
def connFail {τ : Type} : HttpOutcome (Body τ) :=
  .exn "connection error"

/-- C1 fixture: keyword-difficulty fetch fails, everything else succeeds. -/
def w1 : World :=
  { serp := serpOf [itemO "alpha.com" "https://alpha.com/a" (some 1)]
    kd := connFail
    selfBl := blOf 10 5 3
    compBl := fun _ => blOf 7 4 2 }

/-- C2 fixture: self-backlink fetch fails outright, everything else
succeeds. -/
def w2 : World :=
  { serp := serpOf [itemO "alpha.com" "https://alpha.com/a" (some 1)]
    kd := kdOf 45 1200 3
    selfBl := connFail
    compBl := fun _ => blOf 7 4 2 }

/-- C3 fixture: the single organic item matches the self domain but has
no `rank_absolute` field. -/
def w3 : World :=
  { serp := serpOf [itemO "www.self.com" "https://www.self.com/p" none]
    kd := connFail
    selfBl := connFail
    compBl := fun _ => connFail }

/-- C3 witness fixture: the matching item has a nonzero rank. -/
def w3w : World :=
  { serp := serpOf [itemO "www.self.com" "https://www.self.com/p" (some 4)]
    kd := connFail
    selfBl := connFail
    compBl := fun _ => connFail }

/-- C4 fixture: the self domain matches two organic items, at ranks 1
and 2. -/
def w4 : World :=
  { serp := serpOf [itemO "self.com" "https://self.com/a" (some 1),
      itemO "www.self.com" "https://www.self.com/b" (some 2)]
    kd := connFail
    selfBl := connFail
    compBl := fun _ => connFail }

/-- C4 witness fixture: exactly one organic item matches the self
domain. -/
def w4w : World :=
  { serp := serpOf [itemO "bravo.com" "https://bravo.com/x" (some 1),
      itemO "www.self.com" "https://www.self.com/b" (some 2)]
    kd := connFail
    selfBl := connFail
    compBl := fun _ => connFail }

/-- C5 fixture: the provider returns organic items out of rank order. -/
def w5 : World :=
  { serp := serpOf [itemO "bravo.com" "https://bravo.com/x" (some 5),
      itemO "alpha.com" "https://alpha.com/a" (some 2)]
    kd := connFail
    selfBl := connFail
    compBl := fun _ => connFail }

/-- C5 witness fixture: four competitors in ascending rank order, all
fetches succeeding. -/
def w5w : World :=
  { serp := serpOf [itemO "alpha.com" "https://alpha.com/a" (some 1),
      itemO "bravo.com" "https://bravo.com/x" (some 2),
      itemO "carol.com" "https://carol.com/c" (some 3),
      itemO "delta.com" "https://delta.com/d" (some 4)]
    kd := kdOf 45 1200 3
    selfBl := blOf 10 5 3
    compBl := fun _ => blOf 7 4 2 }

/-- C7 fixture: an accepted SERP task whose `result` array is empty. -/
def w7a : World :=
  { serp := .resp 200 (okTasks ([] : List SerpResult))
    kd := connFail
    selfBl := connFail
    compBl := fun _ => connFail }

/-- An accepted SERP body whose `tasks` array is empty. -/
def emptyTasksBody : Body SerpResult :=
  { status_code := some 20000, status_message := some "Ok.", tasks := [] }

/-- C7 fixture: an accepted SERP body whose `tasks` array is empty (the
silent abort). -/
def w7b : World :=
  { serp := .resp 200 emptyTasksBody
    kd := connFail
    selfBl := connFail
    compBl := fun _ => connFail }

/-- C7 witness fixture: the SERP fetch fails at the transport level. -/
def w7c : World :=
  { serp := connFail
    kd := kdOf 45 1200 3
    selfBl := blOf 10 5 3
    compBl := fun _ => blOf 7 4 2 }

/-- C10 fixture: two matching organic items; the last one has
`rank_absolute` 0. -/
def w10 : World :=
  { serp := serpOf [itemO "self.com" "https://self.com/a" (some 3),
      itemO "www.self.com" "https://www.self.com/b" (some 0)]
    kd := connFail
    selfBl := connFail
    compBl := fun _ => connFail }

/-- C10 witness fixture: two matching organic items (ranks 3 and 7) and
one competitor. -/
def w10w : World :=
  { serp := serpOf [itemO "self.com" "https://self.com/a" (some 3),
      itemO "www.self.com" "https://www.self.com/b" (some 7),
      itemO "bravo.com" "https://bravo.com/x" (some 2)]
    kd := connFail
    selfBl := connFail
    compBl := fun _ => connFail }

/-- C9 fixture: a body with the OK sentinel, delivered with HTTP
status 300 (a final status `raise_for_status` does not raise on). -/
def body300 : Body SerpResult :=
  { status_code := some 20000, status_message := some "Ok.", tasks := [] }

/-- The record the run over `w2` produces (self-backlink fetch failed,
so `my_backlinks` is the empty dict). -/
def c2rec : LandscapeRecord :=
  { keyword := "kw"
    keyword_metrics := .metrics (some 45) (some 1200) (some 3)
    my_position := .notInTop10
    my_domain := "self.com"
    my_url := none
    my_backlinks := .empty
    competitors := [
      { position := 1, domain := "alpha.com", url := "https://alpha.com/a",
        title := "t", description := "ds", backlink_data := .profile 7 4 2 }] }

/-- The record the run over `w3w` produces (single self match at rank 4). -/
def c3wrec : LandscapeRecord :=
  { keyword := "kw"
    keyword_metrics := .empty
    my_position := .rank 4
    my_domain := "self.com"
    my_url := some "https://www.self.com/p"
    my_backlinks := .empty
    competitors := [] }

/-- The record the run over `w4w` produces (unique self match at rank 2,
one competitor). -/
def c4wrec : LandscapeRecord :=
  { keyword := "kw"
    keyword_metrics := .empty
    my_position := .rank 2
    my_domain := "self.com"
    my_url := some "https://www.self.com/b"
    my_backlinks := .empty
    competitors := [
      { position := 1, domain := "bravo.com", url := "https://bravo.com/x",
        title := "t", description := "ds", backlink_data := .empty }] }

/-- The record the run over `w5w` produces (four competitors in rank
order, first three enriched). -/
def c5wrec : LandscapeRecord :=
  { keyword := "kw"
    keyword_metrics := .metrics (some 45) (some 1200) (some 3)
    my_position := .notInTop10
    my_domain := "self.com"
    my_url := none
    my_backlinks := .profile 10 5 3
    competitors := [
      { position := 1, domain := "alpha.com", url := "https://alpha.com/a",
        title := "t", description := "ds", backlink_data := .profile 7 4 2 },
      { position := 2, domain := "bravo.com", url := "https://bravo.com/x",
        title := "t", description := "ds", backlink_data := .profile 7 4 2 },
      { position := 3, domain := "carol.com", url := "https://carol.com/c",
        title := "t", description := "ds", backlink_data := .profile 7 4 2 },
      { position := 4, domain := "delta.com", url := "https://delta.com/d",
        title := "t", description := "ds", backlink_data := .absent }] }

/-- The record the run over `w10w` produces (last self match at rank 7
wins, one competitor). -/
def c10wrec : LandscapeRecord :=
  { keyword := "kw"
    keyword_metrics := .empty
    my_position := .rank 7
    my_domain := "self.com"
    my_url := some "https://www.self.com/b"
    my_backlinks := .empty
    competitors := [
      { position := 2, domain := "bravo.com", url := "https://bravo.com/x",
        title := "t", description := "ds", backlink_data := .empty }] }

/-! # Theorems

General lemmas about the embedded functions, followed by one theorem per
specification claim (with witnesses and counterexamples). -/

/-- A fold that keeps the last element satisfying `p` can start from any
accumulator: the accumulator only survives when no element matches. -/
theorem foldl_lastP {α : Type} (p : α → Bool) :
    ∀ (l : List α) (acc : Option α),
      l.foldl (fun a x => if p x then some x else a) acc =
        (l.foldl (fun a x => if p x then some x else a) none).elim acc some := by
  intro l
  induction l with
  | nil => intro acc; simp
  | cons x t ih =>
    intro acc
    simp only [List.foldl_cons]
    by_cases h : p x
    · simp only [h, if_true]
      rw [ih (some x)]
      cases t.foldl (fun a x => if p x then some x else a) none <;> simp
    · simp only [h, if_false, Bool.false_eq_true]
      exact ih acc

/-- The last element satisfying `p` is the last element of the filtered
list. -/
theorem foldl_lastP_eq_getLast {α : Type} (p : α → Bool) :
    ∀ l : List α,
      l.foldl (fun a x => if p x then some x else a) none =
        (l.filter p).getLast? := by
  intro l
  induction l with
  | nil => simp
  | cons x t ih =>
    simp only [List.foldl_cons, List.filter_cons]
    by_cases h : p x
    · simp only [h, if_true]
      rw [foldl_lastP p t (some x), ih]
      cases hg : (t.filter p).getLast? with
      | none =>
        have ht : t.filter p = [] := by
          simpa using List.getLast?_eq_none_iff.mp hg
        simp [ht]
      | some y =>
        cases hf : t.filter p with
        | nil => rw [hf] at hg; simp at hg
        | cons z zs =>
          rw [hf] at hg
          simp only [Option.elim_some]
          rw [List.getLast?_cons_cons, hg]
    · simp only [h, if_false, Bool.false_eq_true]
      exact ih

/-- `selfScan` from an arbitrary accumulator in terms of `lastSelf`. -/
theorem selfScan_shift (yd : String) (items : List SerpItem)
    (acc : Option SerpItem) :
    selfScan yd acc items = (lastSelf yd items).elim acc some :=
  foldl_lastP (fun it => isOrganic it && matchesSelf yd it) items acc

/-- `lastSelf` is the last entry of the list of matching organic items. -/
theorem lastSelf_eq_getLast (yd : String) (items : List SerpItem) :
    lastSelf yd items =
      (items.filter (fun it => isOrganic it && matchesSelf yd it)).getLast? :=
  foldl_lastP_eq_getLast (fun it => isOrganic it && matchesSelf yd it) items

/-- Closed form of the classification loop from an arbitrary start state:
the self fields come from the last matching organic item (or stay), and
the competitors are the non-matching organic items in response order. -/
theorem parse_fold_char (yd : String) :
    ∀ (items : List SerpItem) (st : ParseState),
      items.foldl (parseStep yd) st =
        { your_position := (lastSelf yd items).elim st.your_position
            (fun it => some (it.rank_absolute.getD 0))
          your_url := (lastSelf yd items).elim st.your_url
            (fun it => some (it.url.getD ""))
          competitors := st.competitors ++
            (items.filter (fun it => isOrganic it && !matchesSelf yd it)).map
              mkCompetitor } := by
  intro items
  induction items with
  | nil =>
    intro st
    simp [lastSelf, selfScan]
  | cons it rest ih =>
    intro st
    have hscan : lastSelf yd (it :: rest) =
        (lastSelf yd rest).elim
          (if isOrganic it && matchesSelf yd it then some it else none) some :=
      selfScan_shift yd rest _
    rw [List.foldl_cons, ih (parseStep yd st it), hscan]
    by_cases ho : isOrganic it = true
    · by_cases hm : matchesSelf yd it = true
      · cases hl : lastSelf yd rest <;>
          simp [parseStep, ho, hm, List.filter_cons]
      · cases hl : lastSelf yd rest <;>
          simp [parseStep, ho, hm, List.filter_cons]
    · cases hl : lastSelf yd rest <;>
        simp [parseStep, ho, List.filter_cons]

/-- Closed form of `parseSerp`. -/
theorem parseSerp_char (yd : String) (items : List SerpItem) :
    parseSerp yd items =
      { your_position := (lastSelf yd items).elim none
          (fun it => some (it.rank_absolute.getD 0))
        your_url := (lastSelf yd items).elim none (fun it => some (it.url.getD ""))
        competitors :=
          (items.filter (fun it => isOrganic it && !matchesSelf yd it)).map
            mkCompetitor } := by
  rw [parseSerp, parse_fold_char]
  rfl

/-- The SERP stage always issues exactly the one SERP call. -/
theorem serpStage_calls (w : World) : (serpStage w).1 = [Call.serp] := by
  unfold serpStage
  cases h : (dataforseo_request w.serp).1 with
  | none => simp [h]
  | some b =>
    cases hb : b.tasks with
    | nil => simp [h, hb]
    | cons t ts =>
      by_cases ht : t.status_code = 20000 <;> simp [h, hb, ht]

/-- When the SERP stage aborts, the run returns `None` immediately with
only the SERP call made and the SERP stage's messages. -/
theorem run_serp_abort (w : World) (k yd : String)
    (h : (serpStage w).2.2 = none) :
    analyze_competitor_landscape w k yd =
      ⟨[Call.serp], (serpStage w).2.1, .ok none⟩ := by
  have hc := serpStage_calls w
  unfold analyze_competitor_landscape
  rcases hs : serpStage w with ⟨c1, m1, s1⟩
  rw [hs] at h hc
  simp only at h hc
  subst h
  simp [hc]

/-- Decomposition of a run that returned a record: every stage succeeded
and the record's fields are the stage outputs. -/
theorem run_result_ok_elim (w : World) (k yd : String) (r : LandscapeRecord)
    (h : (analyze_competitor_landscape w k yd).result = .ok (some r)) :
    ∃ items kw_metrics your_bl_data comps,
      (serpStage w).2.2 = some items ∧
      (kdStage w).2.2 = .ok kw_metrics ∧
      (selfBlStage w).2.2 = .ok your_bl_data ∧
      (compBlStage w (parseSerp yd items).competitors).2.2 = .ok comps ∧
      r = { keyword := k
            keyword_metrics := kw_metrics
            my_position := finalizePos (parseSerp yd items).your_position
            my_domain := yd
            my_url := (parseSerp yd items).your_url
            my_backlinks := your_bl_data
            competitors := comps.take 5 } := by
  unfold analyze_competitor_landscape at h
  rcases hs : serpStage w with ⟨c1, m1, s1⟩
  rw [hs] at h
  cases s1 with
  | none => simp at h
  | some items =>
    rcases hk : kdStage w with ⟨c2, m2, k2⟩
    rw [hk] at h
    dsimp only at h
    cases k2 with
    | error e => simp at h
    | ok kw_metrics =>
      rcases hb : selfBlStage w with ⟨c3, m3, b3⟩
      rw [hb] at h
      dsimp only at h
      cases b3 with
      | error e => simp at h
      | ok your_bl_data =>
        rcases hcmp : compBlStage w (parseSerp yd items).competitors
          with ⟨c4, m4, p4⟩
        rw [hcmp] at h
        dsimp only at h
        cases p4 with
        | error e => simp at h
        | ok comps =>
          simp only [Except.ok.injEq, Option.some.injEq] at h
          refine ⟨items, kw_metrics, your_bl_data, comps, rfl, rfl, rfl, ?_, ?_⟩
          · rw [hcmp]
          · exact h.symm

/-- A successful competitor-backlink pass only rewrites `backlink_data`:
positions, domains, length, and everything beyond the enriched prefix
are unchanged. -/
theorem enrich_ok_shape (w : World) :
    ∀ (comps : List Competitor) (n : Nat) (l : List Competitor),
      (enrichCompetitors w comps n).2.2 = .ok l →
      l.map (fun c => c.position) = comps.map (fun c => c.position) ∧
      l.map (fun c => c.domain) = comps.map (fun c => c.domain) ∧
      l.drop n = comps.drop n ∧
      l.length = comps.length := by
  intro comps
  induction comps with
  | nil =>
    intro n l h
    cases n with
    | zero =>
      simp only [enrichCompetitors, Except.ok.injEq] at h
      subst h; simp
    | succ n =>
      simp only [enrichCompetitors, Except.ok.injEq] at h
      subst h; simp
  | cons c rest ih =>
    intro n l h
    cases n with
    | zero =>
      simp only [enrichCompetitors, Except.ok.injEq] at h
      subst h; simp
    | succ n =>
      simp only [enrichCompetitors] at h
      cases hr : (dataforseo_request (w.compBl c.domain)).1 with
      | none =>
        rw [hr] at h
        dsimp only at h
        cases ht : (enrichCompetitors w rest n).2.2 with
        | error e => rw [ht] at h; simp [Except.map] at h
        | ok l2 =>
          rw [ht] at h
          simp only [Except.map, Except.ok.injEq] at h
          subst h
          obtain ⟨h1, h2, h3, h4⟩ := ih n l2 ht
          exact ⟨by simp [h1], by simp [h2], by simp [h3], by simp [h4]⟩
      | some body =>
        rw [hr] at h
        dsimp only at h
        cases htk : body.tasks with
        | nil => rw [htk] at h; simp at h
        | cons task ts =>
          rw [htk] at h
          dsimp only at h
          cases htr : task.result with
          | nil =>
            rw [htr] at h
            dsimp only at h
            cases ht : (enrichCompetitors w rest n).2.2 with
            | error e => rw [ht] at h; simp [Except.map] at h
            | ok l2 =>
              rw [ht] at h
              simp only [Except.map, Except.ok.injEq] at h
              subst h
              obtain ⟨h1, h2, h3, h4⟩ := ih n l2 ht
              exact ⟨by simp [h1], by simp [h2], by simp [h3], by simp [h4]⟩
          | cons bl bls =>
            rw [htr] at h
            dsimp only at h
            cases ht : (enrichCompetitors w rest n).2.2 with
            | error e => rw [ht] at h; simp [Except.map] at h
            | ok l2 =>
              rw [ht] at h
              simp only [Except.map, Except.ok.injEq] at h
              subst h
              obtain ⟨h1, h2, h3, h4⟩ := ih n l2 ht
              exact ⟨by simp [h1], by simp [h2], by simp [h3], by simp [h4]⟩

/-- Non-organic items do not move the self-match scan. -/
theorem selfScan_filter_organic (yd : String) :
    ∀ (items : List SerpItem) (acc : Option SerpItem),
      selfScan yd acc (items.filter isOrganic) = selfScan yd acc items := by
  intro items
  induction items with
  | nil => intro acc; rfl
  | cons it rest ih =>
    intro acc
    by_cases ho : isOrganic it = true
    · rw [List.filter_cons, if_pos ho]
      exact ih _
    · have hc : (isOrganic it && matchesSelf yd it) = false := by simp [ho]
      have hr : selfScan yd acc (it :: rest) = selfScan yd acc rest := by
        show selfScan yd
          (if isOrganic it && matchesSelf yd it then some it else acc) rest = _
        rw [hc]
        simp
      rw [List.filter_cons, if_neg ho, hr]
      exact ih acc

/-- Whenever the self-backlink dictionary is empty, the prompt f-string
raises: either already at the Search-Volume slot, or at the
Total-Backlinks slot whose `.get` fallback is the string `N/A`. -/
theorem buildPrompt_error_of_empty_bl (r : LandscapeRecord) (tl : String)
    (h : r.my_backlinks = BLDict.empty) :
    ∃ e, buildPrompt r tl = .error e := by
  unfold buildPrompt
  cases hsv : fmtComma r.keyword_metrics.getSV with
  | error e => exact ⟨e, by simp [hsv, Bind.bind, Except.bind]⟩
  | ok sv =>
    have hbl : fmtComma r.my_backlinks.getBacklinks =
        .error "ValueError: cannot specify a comma with type s" := by
      rw [h]; rfl
    exact ⟨"ValueError: cannot specify a comma with type s",
      by simp [hsv, hbl, Bind.bind, Except.bind]⟩

/-- The self fields of any returned record are the finalized fields of
the classification loop on the run's SERP items. -/
theorem run_self_fields (w : World) (k yd : String) (r : LandscapeRecord)
    (items : List SerpItem)
    (hr : (analyze_competitor_landscape w k yd).result = .ok (some r))
    (hi : (serpStage w).2.2 = some items) :
    r.my_position = finalizePos ((lastSelf yd items).elim none
      (fun it => some (it.rank_absolute.getD 0))) ∧
    r.my_url = (lastSelf yd items).elim none (fun it => some (it.url.getD "")) := by
  obtain ⟨items2, km, bld, comps, hi2, _, _, _, hrec⟩ :=
    run_result_ok_elim w k yd r hr
  rw [hi] at hi2
  injection hi2 with hii
  subst hii
  subst hrec
  rw [parseSerp_char]
  exact ⟨rfl, rfl⟩

/-- The competitors of any returned record are a successful enrichment
of the classification loop's candidates, truncated to five; positions,
domains and the un-enriched tail are those of the candidates. -/
theorem run_competitors_elim (w : World) (k yd : String) (r : LandscapeRecord)
    (items : List SerpItem)
    (hr : (analyze_competitor_landscape w k yd).result = .ok (some r))
    (hi : (serpStage w).2.2 = some items) :
    ∃ comps : List Competitor,
      r.competitors = comps.take 5 ∧
      comps.map (fun c => c.position) =
        (rawCompetitors yd items).map (fun c => c.position) ∧
      comps.map (fun c => c.domain) =
        (rawCompetitors yd items).map (fun c => c.domain) ∧
      comps.drop 3 = (rawCompetitors yd items).drop 3 := by
  obtain ⟨items2, km, bld, comps, hi2, _, _, hc, hrec⟩ :=
    run_result_ok_elim w k yd r hr
  rw [hi] at hi2
  injection hi2 with hii
  subst hii
  have hraw : (parseSerp yd items).competitors = rawCompetitors yd items := by
    rw [parseSerp_char]; rfl
  rw [hraw] at hc
  obtain ⟨h1, h2, h3, _⟩ := enrich_ok_shape w (rawCompetitors yd items) 3 comps hc
  subst hrec
  exact ⟨comps, rfl, h1, h2, h3⟩

/-- No competitor of a returned record matches the self domain
(case-insensitive substring containment). -/
theorem run_competitors_not_matching (w : World) (k yd : String)
    (r : LandscapeRecord) (items : List SerpItem)
    (hr : (analyze_competitor_landscape w k yd).result = .ok (some r))
    (hi : (serpStage w).2.2 = some items) :
    ∀ c ∈ r.competitors, strContains (strLower c.domain) (strLower yd) = false := by
  obtain ⟨comps, htake, hpos, hdom, hdrop⟩ :=
    run_competitors_elim w k yd r items hr hi
  intro c hc
  rw [htake] at hc
  have hc2 : c ∈ comps := List.take_subset _ _ hc
  have hmem : c.domain ∈ comps.map (fun c => c.domain) :=
    List.mem_map_of_mem _ hc2
  rw [hdom, rawCompetitors, List.map_map] at hmem
  obtain ⟨i, himem, hieq⟩ := List.mem_map.mp hmem
  obtain ⟨hin, hf⟩ := List.mem_filter.mp himem
  have hm : matchesSelf yd i = false := by
    rcases Bool.and_eq_true .. |>.mp hf with ⟨_, hnm⟩
    simpa using hnm
  have : strContains (strLower (i.domain.getD "")) (strLower yd) = false := hm
  rw [← hieq]
  exact this

/-- Claim C1 (code bug, evaluated at the failing input): on `w1` the
keyword-difficulty fetch fails, and the returned record indeed carries
the empty metrics dictionary (fields absent, not zero) — but the prompt
does not render the absent Search Volume as an `N/A` marker: evaluating
the f-string raises `ValueError`, because the `N/A` fallback is a string
under the thousands-separator format spec, so the whole analysis crashes
even though the model call would have succeeded. -/
theorem C1_absent_metrics_crash_prompt :
    (recOf w1 "kw" "self.com").map LandscapeRecord.keyword_metrics
      = some KwMetrics.empty ∧
    (recOf w1 "kw" "self.com").map (fun r => buildPrompt r "3 months")
      = some (.error "ValueError: cannot specify a comma with type s") ∧
    analyze_btn_handler w1 (.ok "strategy") "login" "pw" "key" "self.com"
      "kw" "3 months" [] =
      ([], .crash "ValueError: cannot specify a comma with type s") :=
  ⟨rfl, rfl, rfl⟩

/-- Claim C2 (amended): when the self-backlink fetch fails outright, the
aggregator leaves `self_backlinks` as the *empty* profile (no fields
populated — not the zero profile), the run continues and still returns a
record; the strategy prompt is then never rendered at all — its
construction raises on the `N/A` fallback under the `:,` format spec —
so it contains neither `Total Backlinks: 0` nor an `N/A` marker. -/
theorem C2_self_backlink_failure_empty_profile (w : World) (k yd : String)
    (r : LandscapeRecord)
    (hbl : (dataforseo_request w.selfBl).1 = none)
    (hr : (analyze_competitor_landscape w k yd).result = .ok (some r)) :
    r.my_backlinks = BLDict.empty ∧
    ∀ tl, ∃ e, buildPrompt r tl = .error e := by
  obtain ⟨items, km, bld, comps, hi, hk, hb, hc, hrec⟩ :=
    run_result_ok_elim w k yd r hr
  have hbld : bld = BLDict.empty := by
    simp only [selfBlStage, hbl, Except.ok.injEq] at hb
    exact hb.symm
  have hmb : r.my_backlinks = BLDict.empty := by
    rw [hrec]
    exact hbld
  exact ⟨hmb, fun tl => buildPrompt_error_of_empty_bl r tl hmb⟩

/-- Witness for C2: the concrete run over `w2`. -/
theorem C2_self_backlink_failure_empty_profile_witness :
    (dataforseo_request w2.selfBl).1 = none ∧
    (analyze_competitor_landscape w2 "kw" "self.com").result
      = .ok (some c2rec) ∧
    c2rec.my_backlinks = BLDict.empty ∧
    ∃ e, buildPrompt c2rec "3 months" = .error e :=
  ⟨rfl, rfl,
    (C2_self_backlink_failure_empty_profile w2 "kw" "self.com" c2rec rfl rfl).1,
    (C2_self_backlink_failure_empty_profile w2 "kw" "self.com" c2rec rfl rfl).2
      "3 months"⟩

/-- Counterexample to C2 as stated: on `w2` (self-backlink fetch fails
outright) the record's `my_backlinks` is the empty dictionary, which is
not the zero profile `{0, 0, 0}` the claim asserts, and instead of a
prompt containing `Total Backlinks: 0` the prompt construction raises. -/
theorem C2_counterexample :
    (recOf w2 "kw" "self.com").map LandscapeRecord.my_backlinks
      = some BLDict.empty ∧
    BLDict.empty ≠ BLDict.profile 0 0 0 ∧
    (recOf w2 "kw" "self.com").map (fun r => buildPrompt r "3 months")
      = some (.error "ValueError: cannot specify a comma with type s") :=
  ⟨rfl, by decide, rfl⟩

/-- Claim C3 (amended): in every returned record, provided the last
matching organic entry (if any) carries a nonzero `rank_absolute`,
`self_position` and `self_url` are set together: an integer rank with a
present url, or the "Not in top 10" sentinel with the url absent.
(Without that proviso the code can pair the sentinel with a present url:
see the counterexample.) -/
theorem C3_self_fields_set_together (w : World) (k yd : String)
    (r : LandscapeRecord) (items : List SerpItem)
    (hr : (analyze_competitor_landscape w k yd).result = .ok (some r))
    (hi : (serpStage w).2.2 = some items)
    (hnz : ∀ it, lastSelf yd items = some it → it.rank_absolute.getD 0 ≠ 0) :
    ((∃ p, r.my_position = SelfPos.rank p) ∧ r.my_url ≠ none) ∨
    (r.my_position = SelfPos.notInTop10 ∧ r.my_url = none) := by
  obtain ⟨hpos, hurl⟩ := run_self_fields w k yd r items hr hi
  cases hl : lastSelf yd items with
  | none =>
    right
    rw [hl] at hpos hurl
    exact ⟨hpos, hurl⟩
  | some it =>
    left
    rw [hl] at hpos hurl
    simp only [Option.elim_some] at hpos hurl
    refine ⟨⟨it.rank_absolute.getD 0, ?_⟩, ?_⟩
    · rw [hpos]
      simp [finalizePos, hnz it hl]
    · rw [hurl]
      simp

/-- Witness for C3: the concrete run over `w3w` (single self match at
rank 4). -/
theorem C3_self_fields_set_together_witness :
    ((∃ p, c3wrec.my_position = SelfPos.rank p) ∧ c3wrec.my_url ≠ none) ∨
    (c3wrec.my_position = SelfPos.notInTop10 ∧ c3wrec.my_url = none) :=
  C3_self_fields_set_together w3w "kw" "self.com" c3wrec
    [itemO "www.self.com" "https://www.self.com/p" (some 4)] rfl rfl
    (fun it hit => by
      have h0 : it = itemO "www.self.com" "https://www.self.com/p" (some 4) := by
        have h1 : lastSelf "self.com"
            [itemO "www.self.com" "https://www.self.com/p" (some 4)]
            = some (itemO "www.self.com" "https://www.self.com/p" (some 4)) := rfl
        rw [h1] at hit
        exact (Option.some.injEq .. |>.mp hit).symm
      rw [h0]
      decide)

/-- Counterexample to C3 as stated: on `w3` the single organic item
matches the self domain but has no `rank_absolute`; Python falsiness of
the defaulted 0 turns `self_position` into the sentinel while
`self_url` keeps the matched entry's url — the sentinel and a present
url coexist in one record. -/
theorem C3_counterexample :
    (recOf w3 "kw" "self.com").map LandscapeRecord.my_position
      = some SelfPos.notInTop10 ∧
    (recOf w3 "kw" "self.com").map LandscapeRecord.my_url
      = some (some "https://www.self.com/p") :=
  ⟨rfl, rfl⟩

/-- Claim C4 (amended): (1) if exactly one organic entry matches
self_domain and its `rank_absolute` R is nonzero, the record has
`self_position = R` and `self_url` equal to that entry's url; (2) if no
organic entry matches, the position is the sentinel and the url absent;
(3) no competitor of any returned record matches the self domain.
(As originally stated the claim is false when several entries match:
the loop keeps the last match — see the counterexample and C10.) -/
theorem C4_serp_self_classification :
    (∀ (w : World) (k yd : String) (r : LandscapeRecord)
        (items : List SerpItem) (it : SerpItem),
      (analyze_competitor_landscape w k yd).result = .ok (some r) →
      (serpStage w).2.2 = some items →
      items.filter (fun i => isOrganic i && matchesSelf yd i) = [it] →
      it.rank_absolute.getD 0 ≠ 0 →
      r.my_position = SelfPos.rank (it.rank_absolute.getD 0) ∧
      r.my_url = some (it.url.getD "")) ∧
    (∀ (w : World) (k yd : String) (r : LandscapeRecord)
        (items : List SerpItem),
      (analyze_competitor_landscape w k yd).result = .ok (some r) →
      (serpStage w).2.2 = some items →
      items.filter (fun i => isOrganic i && matchesSelf yd i) = [] →
      r.my_position = SelfPos.notInTop10 ∧ r.my_url = none) ∧
    (∀ (w : World) (k yd : String) (r : LandscapeRecord)
        (items : List SerpItem),
      (analyze_competitor_landscape w k yd).result = .ok (some r) →
      (serpStage w).2.2 = some items →
      ∀ c ∈ r.competitors,
        strContains (strLower c.domain) (strLower yd) = false) := by
  refine ⟨?_, ?_, ?_⟩
  · intro w k yd r items it hr hi huniq hnz
    obtain ⟨hpos, hurl⟩ := run_self_fields w k yd r items hr hi
    have hlast : lastSelf yd items = some it := by
      rw [lastSelf_eq_getLast, huniq]
      rfl
    rw [hlast] at hpos hurl
    simp only [Option.elim_some] at hpos hurl
    constructor
    · rw [hpos]
      simp [finalizePos, hnz]
    · exact hurl
  · intro w k yd r items hr hi hnone
    obtain ⟨hpos, hurl⟩ := run_self_fields w k yd r items hr hi
    have hlast : lastSelf yd items = none := by
      rw [lastSelf_eq_getLast, hnone]
      rfl
    rw [hlast] at hpos hurl
    exact ⟨hpos, hurl⟩
  · intro w k yd r items hr hi
    exact run_competitors_not_matching w k yd r items hr hi

/-- Witness for C4: the run over `w4w` (unique match at rank 2, one
competitor that does not match the self domain). -/
theorem C4_serp_self_classification_witness :
    (c4wrec.my_position = SelfPos.rank 2 ∧
      c4wrec.my_url = some "https://www.self.com/b") ∧
    (∀ c ∈ c4wrec.competitors,
      strContains (strLower c.domain) (strLower "self.com") = false) :=
  ⟨C4_serp_self_classification.1 w4w "kw" "self.com" c4wrec
      [itemO "bravo.com" "https://bravo.com/x" (some 1),
        itemO "www.self.com" "https://www.self.com/b" (some 2)]
      (itemO "www.self.com" "https://www.self.com/b" (some 2))
      rfl rfl (by decide) (by decide),
    C4_serp_self_classification.2.2 w4w "kw" "self.com" c4wrec
      [itemO "bravo.com" "https://bravo.com/x" (some 1),
        itemO "www.self.com" "https://www.self.com/b" (some 2)]
      rfl rfl⟩

/-- Counterexample to C4 as stated: on `w4` the self domain appears in
an organic entry at absolute rank 1, yet the returned record reports
`self_position = 2` (the later match overwrote the earlier one), so
"self_position = R for every matching rank R" fails at R = 1. -/
theorem C4_counterexample :
    isOrganic (itemO "self.com" "https://self.com/a" (some 1)) = true ∧
    matchesSelf "self.com" (itemO "self.com" "https://self.com/a" (some 1))
      = true ∧
    (serpStage w4).2.2 = some [itemO "self.com" "https://self.com/a" (some 1),
      itemO "www.self.com" "https://www.self.com/b" (some 2)] ∧
    (recOf w4 "kw" "self.com").map LandscapeRecord.my_position
      = some (SelfPos.rank 2) ∧
    SelfPos.rank 2 ≠ SelfPos.rank 1 :=
  ⟨by decide, by decide, rfl, rfl, by decide⟩

/-- Claim C5 (amended): every returned record has at most 5 competitors,
and entries beyond the first three *in response order* never carry
backlink data; the competitor order is the provider's response order, so
it is ascending in `rank_position` whenever the SERP items arrive in
ascending `rank_absolute` order (the code itself never sorts — see the
counterexample). -/
theorem C5_competitors_shape (w : World) (k yd : String) (r : LandscapeRecord)
    (items : List SerpItem)
    (hr : (analyze_competitor_landscape w k yd).result = .ok (some r))
    (hi : (serpStage w).2.2 = some items) :
    r.competitors.length ≤ 5 ∧
    (∀ c ∈ r.competitors.drop 3, c.backlink_data = BLField.absent) ∧
    (items.Pairwise
        (fun a b => a.rank_absolute.getD 0 ≤ b.rank_absolute.getD 0) →
      r.competitors.Pairwise (fun a b => a.position ≤ b.position)) := by
  obtain ⟨comps, htake, hpos, hdom, hdrop⟩ :=
    run_competitors_elim w k yd r items hr hi
  refine ⟨?_, ?_, ?_⟩
  · rw [htake]
    simp [List.length_take]
  · intro c hc
    rw [htake, List.drop_take] at hc
    have hc2 : c ∈ comps.drop 3 := List.take_subset _ _ hc
    rw [hdrop] at hc2
    have hc3 : c ∈ rawCompetitors yd items := List.mem_of_mem_drop hc2
    rw [rawCompetitors] at hc3
    obtain ⟨i, _, hieq⟩ := List.mem_map.mp hc3
    rw [← hieq]
    rfl
  · intro hp
    have h0 : (rawCompetitors yd items).Pairwise
        (fun a b => a.position ≤ b.position) := by
      rw [rawCompetitors]
      exact List.pairwise_map.mpr (hp.filter _)
    have h0m : ((rawCompetitors yd items).map (fun c => c.position)).Pairwise
        (fun a b => a ≤ b) := List.pairwise_map.mpr h0
    rw [← hpos] at h0m
    have h1 : comps.Pairwise (fun a b => a.position ≤ b.position) :=
      List.pairwise_map.mp h0m
    rw [htake]
    exact h1.sublist (List.take_sublist 5 comps)

/-- Witness for C5: the run over `w5w` (four competitors arriving in
ascending rank order; all fetches succeed, so the first three are
enriched and the fourth stays bare). -/
theorem C5_competitors_shape_witness :
    c5wrec.competitors.length ≤ 5 ∧
    (∀ c ∈ c5wrec.competitors.drop 3, c.backlink_data = BLField.absent) ∧
    c5wrec.competitors.Pairwise (fun a b => a.position ≤ b.position) := by
  obtain ⟨h1, h2, h3⟩ := C5_competitors_shape w5w "kw" "self.com" c5wrec
    [itemO "alpha.com" "https://alpha.com/a" (some 1),
      itemO "bravo.com" "https://bravo.com/x" (some 2),
      itemO "carol.com" "https://carol.com/c" (some 3),
      itemO "delta.com" "https://delta.com/d" (some 4)] rfl rfl
  exact ⟨h1, h2, h3 (by decide)⟩

/-- Counterexample to C5 as stated: on `w5` the provider returns the
organic items at ranks 5 then 2; the record's competitors keep that
response order, so the sequence is not sorted by `rank_position`
ascending. -/
theorem C5_counterexample :
    (recOf w5 "kw" "self.com").map
        (fun r => r.competitors.map (fun c => c.position)) = some [5, 2] ∧
    ¬ ([5, 2] : List Int).Pairwise (fun a b => a ≤ b) :=
  ⟨rfl, by decide⟩

/-- Claim C6: non-organic SERP entries are invisible to the
classification loop — parsing any item list yields exactly the same
state (self position, self url, competitors) as parsing its organic-only
filtering, so ads/rich snippets never enter `competitors` and never
affect `self_position` or `self_url`. -/
theorem C6_non_organic_ignored (yd : String) (items : List SerpItem) :
    parseSerp yd items = parseSerp yd (items.filter isOrganic) := by
  rw [parseSerp_char, parseSerp_char]
  have h1 : lastSelf yd (items.filter isOrganic) = lastSelf yd items :=
    selfScan_filter_organic yd items none
  have h2 : (items.filter isOrganic).filter
        (fun it => isOrganic it && !matchesSelf yd it)
      = items.filter (fun it => isOrganic it && !matchesSelf yd it) := by
    rw [List.filter_filter]
    apply List.filter_congr
    intro a _
    cases ho : isOrganic a <;> simp [ho]
  rw [h1, h2]

/-- On an aborting SERP stage, the emitted messages are empty exactly
when the failure is the accepted-body-with-empty-tasks case. -/
theorem serpStage_abort_msgs (w : World) (h : (serpStage w).2.2 = none) :
    ((serpStage w).2.1 = [] ↔ silentSerp w.serp = true) := by
  cases hw : w.serp with
  | exn e =>
    simp [serpStage, dataforseo_request, hw, silentSerp]
  | resp st body =>
    by_cases h4 : 400 ≤ st ∧ st < 600
    · simp [serpStage, dataforseo_request, hw, silentSerp, h4]
    · by_cases hsc : body.status_code = some 20000
      · cases htk : body.tasks with
        | nil =>
          simp [serpStage, dataforseo_request, hw, silentSerp, h4, hsc, htk]
        | cons t ts =>
          by_cases hts : t.status_code = 20000
          · exfalso
            simp [serpStage, dataforseo_request, hw, h4, hsc, htk, hts] at h
          · simp [serpStage, dataforseo_request, hw, silentSerp, h4, hsc,
              htk, hts]
      · simp [serpStage, dataforseo_request, hw, silentSerp, h4, hsc]

/-- Claim C7 (amended): a SERP-stage failure — transport failure, non-OK
body status, missing/empty `tasks`, or non-OK task status — yields no
LandscapeRecord, appends no session-history entry, and stops the run
before any later external call (only the SERP call is ever issued); the
abort is message-less exactly in the empty-tasks case (shown silent on
`w7b`).  An accepted task whose `result` array is empty is *not* a
failure: the run over `w7a` continues and returns a record. -/
theorem C7_serp_failure_aborts :
    (∀ (w : World) (k yd : String),
      (serpStage w).2.2 = none →
      (analyze_competitor_landscape w k yd).result = .ok none ∧
      (analyze_competitor_landscape w k yd).calls = [Call.serp] ∧
      ((analyze_competitor_landscape w k yd).msgs = [] ↔
        silentSerp w.serp = true) ∧
      (∀ mo lg pw key tl hist,
        (analyze_btn_handler w mo lg pw key yd k tl hist).1 = hist)) ∧
    (serpStage w7b).2.2 = none ∧
    (analyze_competitor_landscape w7b "kw" "self.com").msgs = [] ∧
    (recOf w7a "kw" "self.com").isSome = true := by
  refine ⟨?_, rfl, rfl, rfl⟩
  intro w k yd h
  have habort := run_serp_abort w k yd h
  refine ⟨by rw [habort], by rw [habort], ?_, ?_⟩
  · rw [habort]
    exact serpStage_abort_msgs w h
  · intro mo lg pw key tl hist
    unfold analyze_btn_handler
    by_cases hcred : (lg = "" ∨ pw = "" ∨ key = "" ∨ yd = "" ∨ k = "")
    · rw [if_pos hcred]
    · rw [if_neg hcred]
      have hres : (analyze_competitor_landscape w k yd).result = .ok none := by
        rw [habort]
      rw [hres]

/-- Witness for C7: the transport-failure world `w7c`. -/
theorem C7_serp_failure_aborts_witness :
    (analyze_competitor_landscape w7c "kw" "self.com").result = .ok none ∧
    (analyze_competitor_landscape w7c "kw" "self.com").calls = [Call.serp] ∧
    (analyze_btn_handler w7c (.ok "strategy") "login" "pw" "key" "self.com"
      "kw" "3 months" []).1 = [] := by
  obtain ⟨h1, h2, h3, h4⟩ := C7_serp_failure_aborts.1 w7c "kw" "self.com" rfl
  exact ⟨h1, h2, h4 (.ok "strategy") "login" "pw" "key" "3 months" []⟩

/-- Counterexample to C7 as stated: on `w7a` the SERP task is accepted
but its `result` array is empty ("no result"); instead of aborting with
no LandscapeRecord, the run continues through the later stages (the
keyword-difficulty and self-backlink calls are issued) and returns a
record. -/
theorem C7_counterexample :
    (recOf w7a "kw" "self.com").isSome = true ∧
    (analyze_competitor_landscape w7a "kw" "self.com").calls
      = [Call.serp, Call.kd, Call.selfBl] :=
  ⟨rfl, rfl⟩

/-- Claim C8: a generative-model failure leaves the session history
unchanged even though a LandscapeRecord was already constructed — the
handler crashes before the append, so the record is never persisted. -/
theorem C8_model_failure_no_history (w : World) (mo : ModelOutcome)
    (lg pw key yd kw tl m : String) (hist : List AnalysisResult)
    (d : LandscapeRecord)
    (hd : (analyze_competitor_landscape w kw yd).result = .ok (some d))
    (hm : mo = .err m) :
    (analyze_btn_handler w mo lg pw key yd kw tl hist).1 = hist ∧
    (analyze_btn_handler w mo lg pw key yd kw tl hist).2
      ≠ HandlerOutcome.done := by
  subst hm
  unfold analyze_btn_handler
  by_cases hcred : (lg = "" ∨ pw = "" ∨ key = "" ∨ yd = "" ∨ kw = "")
  · rw [if_pos hcred]
    exact ⟨rfl, by simp⟩
  · rw [if_neg hcred, hd]
    cases hp : buildPrompt d tl with
    | error e => simp [analyze_with_claude, hp, Bind.bind, Except.bind]
    | ok p => simp [analyze_with_claude, hp, Bind.bind, Except.bind]

/-- Witness for C8: the run over `w2` builds a record; the model call
fails; the history stays empty. -/
theorem C8_model_failure_no_history_witness :
    (analyze_competitor_landscape w2 "kw" "self.com").result
      = .ok (some c2rec) ∧
    (analyze_btn_handler w2 (.err "overloaded") "login" "pw" "key"
      "self.com" "kw" "3 months" []).1 = [] ∧
    (analyze_btn_handler w2 (.err "overloaded") "login" "pw" "key"
      "self.com" "kw" "3 months" []).2 ≠ HandlerOutcome.done :=
  ⟨rfl,
    (C8_model_failure_no_history w2 (.err "overloaded") "login" "pw" "key"
      "self.com" "kw" "3 months" "overloaded" [] c2rec rfl rfl).1,
    (C8_model_failure_no_history w2 (.err "overloaded") "login" "pw" "key"
      "self.com" "kw" "3 months" "overloaded" [] c2rec rfl rfl).2⟩

/-- Claim C9 (amended): the data client succeeds iff the HTTP layer
raised no exception — which for a delivered response means the final
status lies outside 400–599 (`raise_for_status`), not necessarily in the
2xx range — and the body's top-level `status_code` equals the OK
sentinel 20000.  On success the returned value is the response body and
no error message is emitted; on failure a message is emitted.  The
client is a function of a single HTTP outcome: no retry exists. -/
theorem C9_request_success_iff {τ : Type} (out : HttpOutcome (Body τ)) :
    (((dataforseo_request out).1).isSome = true ↔
      ∃ st body, out = HttpOutcome.resp st body ∧ ¬(400 ≤ st ∧ st < 600) ∧
        body.status_code = some 20000) ∧
    (((dataforseo_request out).1).isSome = true ↔
      (dataforseo_request out).2 = []) ∧
    (∀ body, (dataforseo_request out).1 = some body →
      ∃ st, out = HttpOutcome.resp st body) := by
  cases out with
  | exn e =>
    refine ⟨?_, ?_, ?_⟩
    · simp [dataforseo_request]
    · simp [dataforseo_request]
    · intro body hb
      simp [dataforseo_request] at hb
  | resp st body =>
    by_cases h4 : 400 ≤ st ∧ st < 600
    · refine ⟨?_, ?_, ?_⟩
      · simp only [dataforseo_request, if_pos h4]
        constructor
        · intro hh
          simp at hh
        · rintro ⟨st2, body2, heq, hn4, hsc⟩
          obtain ⟨h1, h2⟩ := HttpOutcome.resp.injEq .. |>.mp heq
          exact absurd (h1 ▸ h4) hn4
      · simp [dataforseo_request, h4]
      · intro b hb
        simp [dataforseo_request, h4] at hb
    · by_cases hsc : body.status_code = some 20000
      · refine ⟨?_, ?_, ?_⟩
        · simp only [dataforseo_request, if_neg h4, if_pos hsc,
            Option.isSome_some, true_iff]
          exact ⟨st, body, rfl, h4, hsc⟩
        · simp [dataforseo_request, h4, hsc]
        · intro b hb
          simp only [dataforseo_request, if_neg h4, if_pos hsc,
            Option.some.injEq] at hb
          exact ⟨st, by rw [hb]⟩
      · refine ⟨?_, ?_, ?_⟩
        · simp only [dataforseo_request, if_neg h4, if_neg hsc]
          constructor
          · intro hh
            simp at hh
          · rintro ⟨st2, body2, heq, hn4, hsc2⟩
            obtain ⟨h1, h2⟩ := HttpOutcome.resp.injEq .. |>.mp heq
            exact absurd (h2 ▸ hsc2) hsc
        · simp [dataforseo_request, h4, hsc]
        · intro b hb
          simp [dataforseo_request, h4, hsc] at hb

/-- Witness for C9: a 200-status body carrying the OK sentinel is
accepted with no message. -/
theorem C9_request_success_iff_witness :
    ((dataforseo_request (HttpOutcome.resp 200 emptyTasksBody)).1).isSome
      = true ∧
    (dataforseo_request (HttpOutcome.resp 200 emptyTasksBody)).2 = [] := by
  have h := C9_request_success_iff (HttpOutcome.resp 200 emptyTasksBody)
  have h1 : ((dataforseo_request
      (HttpOutcome.resp 200 emptyTasksBody)).1).isSome = true :=
    h.1.mpr ⟨200, emptyTasksBody, rfl, by decide, rfl⟩
  exact ⟨h1, h.2.1.mp h1⟩

/-- Counterexample to C9 as stated: a final HTTP status of 300 is not
2xx, yet `raise_for_status` does not raise on it, so a body carrying the
OK sentinel is returned as a success — "success only if the HTTP status
is 2xx" fails on the code. -/
theorem C9_counterexample :
    (dataforseo_request (HttpOutcome.resp 300 body300)).1 = some body300 ∧
    ¬(200 ≤ 300 ∧ 300 < 300) :=
  ⟨rfl, by decide⟩

/-- Claim C10 (amended): when at least one organic entry matches the
self domain, `self_url` comes from the *last* matching entry in
response order (earlier matches are silently overwritten), and
`self_position` is that entry's `rank_absolute` provided it is nonzero —
with a missing or zero rank the position degrades to the "Not in top
10" sentinel instead of the entry's value (see the counterexample);
matching entries never appear in `competitors`. -/
theorem C10_last_match_wins (w : World) (k yd : String)
    (r : LandscapeRecord) (items : List SerpItem) (it : SerpItem)
    (hr : (analyze_competitor_landscape w k yd).result = .ok (some r))
    (hi : (serpStage w).2.2 = some items)
    (hlast : (items.filter (fun i => isOrganic i && matchesSelf yd i)).getLast?
      = some it) :
    r.my_url = some (it.url.getD "") ∧
    (it.rank_absolute.getD 0 ≠ 0 →
      r.my_position = SelfPos.rank (it.rank_absolute.getD 0)) ∧
    (it.rank_absolute.getD 0 = 0 → r.my_position = SelfPos.notInTop10) ∧
    (∀ c ∈ r.competitors,
      strContains (strLower c.domain) (strLower yd) = false) := by
  obtain ⟨hpos, hurl⟩ := run_self_fields w k yd r items hr hi
  have hl : lastSelf yd items = some it := by
    rw [lastSelf_eq_getLast]
    exact hlast
  rw [hl] at hpos hurl
  simp only [Option.elim_some] at hpos hurl
  refine ⟨hurl, ?_, ?_, run_competitors_not_matching w k yd r items hr hi⟩
  · intro hnz
    rw [hpos]
    simp [finalizePos, hnz]
  · intro hz
    rw [hpos]
    simp [finalizePos, hz]

/-- Witness for C10: the run over `w10w` (matches at ranks 3 then 7; the
rank-7 entry wins; the rank-2 competitor does not match). -/
theorem C10_last_match_wins_witness :
    c10wrec.my_url = some "https://www.self.com/b" ∧
    c10wrec.my_position = SelfPos.rank 7 ∧
    (∀ c ∈ c10wrec.competitors,
      strContains (strLower c.domain) (strLower "self.com") = false) := by
  obtain ⟨h1, h2, h3, h4⟩ := C10_last_match_wins w10w "kw" "self.com" c10wrec
    [itemO "self.com" "https://self.com/a" (some 3),
      itemO "www.self.com" "https://www.self.com/b" (some 7),
      itemO "bravo.com" "https://bravo.com/x" (some 2)]
    (itemO "www.self.com" "https://www.self.com/b" (some 7)) rfl rfl
    (by decide)
  exact ⟨h1, h2 (by decide), h4⟩

/-- Counterexample to C10 as stated: on `w10` the last matching entry
(rank_absolute 0) supplies `self_url`, but `self_position` is *not*
taken from it — the zero rank is falsy, so the record reports the
sentinel rather than any rank. -/
theorem C10_counterexample :
    (serpStage w10).2.2 = some [itemO "self.com" "https://self.com/a" (some 3),
      itemO "www.self.com" "https://www.self.com/b" (some 0)] ∧
    (recOf w10 "kw" "self.com").map LandscapeRecord.my_url
      = some (some "https://www.self.com/b") ∧
    (recOf w10 "kw" "self.com").map LandscapeRecord.my_position
      = some SelfPos.notInTop10 ∧
    SelfPos.notInTop10 ≠ SelfPos.rank 0 ∧
    SelfPos.notInTop10 ≠ SelfPos.rank 3 :=
  ⟨rfl, rfl, rfl, by decide, by decide⟩
